import Mathlib

/-!
Shallow embedding of the `fastapi-microservices` repository: an API gateway
(`gateway/main.py`) that proxies GET requests by path prefix to two upstream
stubs (`auth-service/main.py`, `user-service/main.py`).

The embedding models:
- JSON values, Python's `json.dumps` rendering as used by FastAPI's
  `JSONResponse` (compact separators, i.e. "," and ":"), and a parser
  modelling `response.json()` (Python `json.loads`) on the integer/str/bool
  fragment of JSON: like `json.loads` it rejects leading-zero numbers and
  unescaped control characters inside strings, and keeps only the last
  occurrence of a duplicated object key (at the position of the first);
  strictly smaller than `json.loads` only where the repository's payloads
  cannot reach (floating-point numbers, `\uXXXX` and `\b`/`\f` escapes,
  NaN/Infinity), so a `some` result of the model is a `json.loads` success
  with the same value;
- HTTP requests and responses as records of method, path, query, headers,
  status, content type and body;
- the FastAPI/Starlette routing of each of the three apps, faithful to the
  registered routes: route decorators register GET-only (or POST-only)
  routes, unmatched paths yield the framework 404, method mismatches the
  framework 405, a missing trailing slash a 307 redirect, and an exception
  escaping a handler the framework's plain-text 500.
-/

/-- JSON values, restricted to integer numbers (the repository's payloads
contain only strings and booleans; Python floats are outside the model). -/
inductive Json where
  | null : Json
  | bool (b : Bool) : Json
  | num (n : Int) : Json
  | str (s : String) : Json
  | arr (elems : List Json) : Json
  | obj (fields : List (String × Json)) : Json
deriving Repr, Inhabited

/-- Escape one character the way Python `json.dumps` (ensure_ascii=False)
does for the characters that occur in this development: quote, backslash and
the common control characters. Other characters pass through verbatim. -/
def escapeChar (c : Char) : String :=
  if c = '"' then "\\\""
  else if c = '\\' then "\\\\"
  else if c = '\n' then "\\n"
  else if c = '\t' then "\\t"
  else if c = '\r' then "\\r"
  else String.singleton c

/-- Escape a whole string for JSON output. -/
def escapeStr (s : String) : String :=
  s.data.foldl (fun acc c => acc ++ escapeChar c) ""

/-- Render a JSON string literal including its quotes. -/
def renderStr (s : String) : String :=
  "\"" ++ escapeStr s ++ "\""

mutual

/-- Render a JSON value exactly as FastAPI's `JSONResponse` does:
`json.dumps(content, ensure_ascii=False, separators=(",", ":"))`. -/
def Json.render : Json → String
  | Json.null => "null"
  | Json.bool true => "true"
  | Json.bool false => "false"
  | Json.num n => toString n
  | Json.str s => renderStr s
  | Json.arr xs => "[" ++ Json.renderItems xs ++ "]"
  | Json.obj kvs => "\x7b" ++ Json.renderFields kvs ++ "\x7d"

/-- Render array elements separated by commas. -/
def Json.renderItems : List Json → String
  | [] => ""
  | [x] => Json.render x
  | x :: xs => Json.render x ++ "," ++ Json.renderItems xs

/-- Render object fields separated by commas, with ":" between key and
value (FastAPI's compact separators). -/
def Json.renderFields : List (String × Json) → String
  | [] => ""
  | [(k, v)] => renderStr k ++ ":" ++ Json.render v
  | (k, v) :: kvs => renderStr k ++ ":" ++ Json.render v ++ "," ++ Json.renderFields kvs

end

/-- Skip JSON insignificant whitespace. -/
def jsonWs (s : List Char) : List Char :=
  match s with
  | c :: rest =>
    if c = ' ' ∨ c = '\t' ∨ c = '\n' ∨ c = '\r' then jsonWs rest else c :: rest
  | [] => []

/-- Decode a single-character JSON string escape (after the backslash). -/
def escDecode (e : Char) : Option Char :=
  if e = '"' then some '"'
  else if e = '\\' then some '\\'
  else if e = '/' then some '/'
  else if e = 'n' then some '\n'
  else if e = 't' then some '\t'
  else if e = 'r' then some '\r'
  else none

/-- Parse the body of a JSON string literal (the opening quote already
consumed), returning the decoded string and the remaining input. An
unescaped control character (U+0000 through U+001F) is rejected, as
strict-mode `json.loads` rejects it with `JSONDecodeError`. -/
def parseStrBody (acc : List Char) (s : List Char) : Option (String × List Char) :=
  match s with
  | [] => none
  | '"' :: rest => some (String.mk acc.reverse, rest)
  | '\\' :: e :: rest =>
    match escDecode e with
    | some c => parseStrBody (c :: acc) rest
    | none => none
  | c :: rest =>
    if c.toNat < 32 then none else parseStrBody (c :: acc) rest

/-- Split a leading run of decimal digits from the input. -/
def takeDigits : List Char → List Char × List Char
  | c :: rest =>
    if c.isDigit then
      let p := takeDigits rest
      (c :: p.1, p.2)
    else ([], c :: rest)
  | [] => ([], [])

/-- Value of a list of decimal digits. -/
def digitsToNat (ds : List Char) : Nat :=
  ds.foldl (fun n c => n * 10 + (c.toNat - 48)) 0

/-- The JSON integer grammar admitted by `json.loads`: a single zero or a
run of digits not starting with zero — leading zeros such as "01" are
rejected as invalid JSON. -/
def validIntDigits (ds : List Char) : Bool :=
  match ds with
  | [] => false
  | ['0'] => true
  | c :: _ => c ≠ '0'

/-- Record a parsed object field the way `json.loads` builds its Python
dict (`d[k] = v` in input order): a repeated key keeps the position of its
first occurrence but takes the latest value. The accumulator is in reverse
order of first occurrence and holds each key at most once. -/
def upsertField (k : String) (v : Json) (acc : List (String × Json)) :
    List (String × Json) :=
  if acc.any (fun f => f.1 == k) then
    acc.map (fun f => if f.1 == k then (k, v) else f)
  else (k, v) :: acc

mutual

/-- Parse one JSON value (fuel-based recursion; `Json.parse` supplies ample
fuel). Models Python `json.loads` on the integer fragment of JSON. -/
def parseVal (fuel : Nat) (s : List Char) : Option (Json × List Char) :=
  match fuel, jsonWs s with
  | 0, _ => none
  | _, [] => none
  | _ + 1, 'n' :: 'u' :: 'l' :: 'l' :: rest => some (Json.null, rest)
  | _ + 1, 't' :: 'r' :: 'u' :: 'e' :: rest => some (Json.bool true, rest)
  | _ + 1, 'f' :: 'a' :: 'l' :: 's' :: 'e' :: rest => some (Json.bool false, rest)
  | _ + 1, '"' :: rest => (parseStrBody [] rest).map fun p => (Json.str p.1, p.2)
  | _ + 1, '-' :: rest =>
    (match takeDigits rest with
     | (ds, r) =>
       if validIntDigits ds then some (Json.num (-(digitsToNat ds : Int)), r)
       else none)
  | fuel + 1, '[' :: rest =>
    (match jsonWs rest with
     | ']' :: r => some (Json.arr [], r)
     | r => parseItems fuel [] r)
  | fuel + 1, '\x7b' :: rest =>
    (match jsonWs rest with
     | '\x7d' :: r => some (Json.obj [], r)
     | r => parseFields fuel [] r)
  | _ + 1, c :: rest =>
    if c.isDigit then
      match takeDigits (c :: rest) with
      | (ds, r) =>
        if validIntDigits ds then some (Json.num (digitsToNat ds : Int), r)
        else none
    else none

/-- Parse the elements of a non-empty JSON array after the opening bracket. -/
def parseItems (fuel : Nat) (acc : List Json) (s : List Char) : Option (Json × List Char) :=
  match fuel with
  | 0 => none
  | fuel + 1 =>
    match parseVal fuel s with
    | none => none
    | some (v, r) =>
      match jsonWs r with
      | ',' :: r2 => parseItems fuel (v :: acc) r2
      | ']' :: r2 => some (Json.arr (v :: acc).reverse, r2)
      | _ => none

/-- Parse the fields of a non-empty JSON object after the opening brace.
Duplicate keys behave as in `json.loads`: the first occurrence fixes the
position, the last occurrence the value. -/
def parseFields (fuel : Nat) (acc : List (String × Json)) (s : List Char) :
    Option (Json × List Char) :=
  match fuel with
  | 0 => none
  | fuel + 1 =>
    match jsonWs s with
    | '"' :: r =>
      (match parseStrBody [] r with
       | none => none
       | some (k, r2) =>
         match jsonWs r2 with
         | ':' :: r3 =>
           (match parseVal fuel r3 with
            | none => none
            | some (v, r4) =>
              match jsonWs r4 with
              | ',' :: r5 => parseFields fuel (upsertField k v acc) r5
              | '\x7d' :: r5 => some (Json.obj (upsertField k v acc).reverse, r5)
              | _ => none)
         | _ => none)
    | _ => none

end

/-- Parse a complete JSON document, requiring only whitespace to remain.
Models `json.loads`: `none` corresponds to `json.JSONDecodeError`. -/
def Json.parse (s : String) : Option Json :=
  match parseVal (s.data.length + 1) s.data with
  | some (v, rest) => if jsonWs rest = [] then some v else none
  | none => none

/-- An inbound HTTP request: method, URL path component, raw query string,
headers and body. The query string is carried separately from the path, as
in ASGI, where `path` and `query_string` are distinct scope fields. -/
structure Request where
  method : String
  path : String
  rawQuery : String
  headers : List (String × String)
  body : String
deriving Repr

/-- An HTTP response as the caller observes it: status, content type, body. -/
structure HttpResponse where
  status : Nat
  contentType : String
  body : String
deriving Repr, DecidableEq

/-- The outbound request a gateway handler issues. The source calls
`client.get(url)`: the method is always GET, no inbound header or body is
passed on (httpx adds only its own defaults), so `headers` records the
forwarded inbound headers (always `[]`) and `body` the forwarded body
(always `""`). -/
structure OutboundRequest where
  method : String
  url : String
  headers : List (String × String)
  body : String
deriving Repr, DecidableEq

/-- A 200 response carrying a JSON value, as FastAPI produces from a handler
returning a dict (`JSONResponse`, default status 200). -/
def jsonOk (j : Json) : HttpResponse :=
  { status := 200, contentType := "application/json", body := Json.render j }

/-- Starlette's `ServerErrorMiddleware` response when an exception escapes a
handler: a plain-text 500. This is what the caller sees when `httpx` raises
(connection error, timeout) or `response.json()` fails to decode. -/
def internalServerError : HttpResponse :=
  { status := 500, contentType := "text/plain; charset=utf-8",
    body := "Internal Server Error" }

/-- FastAPI's default handler for an unmatched path: JSON 404. -/
def notFoundResponse : HttpResponse :=
  { status := 404, contentType := "application/json",
    body := Json.render (Json.obj [("detail", Json.str "Not Found")]) }

/-- FastAPI's default response when the path matches a route but the method
does not: JSON 405. -/
def methodNotAllowedResponse : HttpResponse :=
  { status := 405, contentType := "application/json",
    body := Json.render (Json.obj [("detail", Json.str "Method Not Allowed")]) }

/-- Starlette's `redirect_slashes` response: a 307 with empty body (the
Location header is not modelled; no claim concerns it). -/
def redirectSlashResponse : HttpResponse :=
  { status := 307, contentType := "", body := "" }

/-- Boolean prefix test on character lists. -/
def chStarts : List Char → List Char → Bool
  | [], _ => true
  | _ :: _, [] => false
  | a :: p, b :: s => a == b && chStarts p s

/-- Test whether string `p` is a prefix of string `s`. -/
def strStarts (p s : String) : Bool := chStarts p.data s.data

/-- Drop the first `n` characters of a string. -/
def strDropLen (n : Nat) (s : String) : String := String.mk (s.data.drop n)

/-- What the upstream does with one outbound request: answers (status,
content type, body bytes), refuses/fails the connection, or exceeds the
client timeout. The two failure constructors stand for the `httpx`
exceptions `ConnectError` and `TimeoutException`. -/
inductive UpstreamResult where
  | response (status : Nat) (contentType : String) (body : String) : UpstreamResult
  | connectError : UpstreamResult
  | timedOut : UpstreamResult
deriving Repr, DecidableEq

/-- Completion of a proxy handler, `gateway/main.py` lines 12-14 and 18-20:
`response = await client.get(url); return response.json()`. On an upstream
response the body is JSON-decoded and returned as a fresh dict, which
FastAPI serializes as a 200 `JSONResponse` — the upstream status and content
type are discarded. A decode failure or an `httpx` exception escapes the
handler and becomes the framework 500. -/
def proxyReturn (r : UpstreamResult) : HttpResponse :=
  match r with
  | UpstreamResult.response _ _ body =>
    (match Json.parse body with
     | some j => jsonOk j
     | none => internalServerError)
  | UpstreamResult.connectError => internalServerError
  | UpstreamResult.timedOut => internalServerError

/-- Route selected by the gateway's Starlette router for a (method, path). -/
inductive Routed where
  | health : Routed
  | authProxy (rest : String) : Routed
  | userProxy (rest : String) : Routed
  | redirectSlash : Routed
  | methodNotAllowed : Routed
  | noMatch : Routed
deriving Repr, DecidableEq

/-- Gateway route matching, faithful to the three registered routes of
`gateway/main.py` (`GET /health`, `GET /auth/{path:path}`,
`GET /users/{path:path}`) under Starlette semantics: the `path` converter
matches any remainder (slashes included, empty included); a path match with
the wrong method is a 405; `redirect_slashes` turns `GET /auth`, `GET
/users` and `GET /health/` into 307 redirects; everything else is a 404. -/
def routeOf (method path : String) : Routed :=
  if path = "/health" then
    (if method = "GET" then Routed.health else Routed.methodNotAllowed)
  else if strStarts "/auth/" path then
    (if method = "GET" then Routed.authProxy (strDropLen 6 path)
     else Routed.methodNotAllowed)
  else if strStarts "/users/" path then
    (if method = "GET" then Routed.userProxy (strDropLen 7 path)
     else Routed.methodNotAllowed)
  else if method = "GET" && (path = "/auth" || path = "/users" || path = "/health/") then
    Routed.redirectSlash
  else
    Routed.noMatch

/-- Body returned by the gateway's `health` handler (lines 7-8). -/
def gatewayHealthJson : Json :=
  Json.obj [("status", Json.str "healthy"), ("service", Json.str "gateway")]

/-- Upstream URL built by `auth_proxy` (line 13). -/
def authProxyUrl (rest : String) : String := "http://auth-service:8000/" ++ rest

/-- Upstream URL built by `user_proxy` (line 19). -/
def userProxyUrl (rest : String) : String := "http://user-service:8000/" ++ rest

/-- The gateway app, `gateway/main.py`: routes the request, and for a proxy
route issues one outbound GET to the upstream (modelled as a function from
outbound requests to upstream results) and completes with `proxyReturn`.
Returns the caller-visible response together with the list of outbound
requests issued while handling the request. -/
def gatewayApp (upstream : OutboundRequest → UpstreamResult) (req : Request) :
    HttpResponse × List OutboundRequest :=
  match routeOf req.method req.path with
  | Routed.health => (jsonOk gatewayHealthJson, [])
  | Routed.authProxy rest =>
    let out : OutboundRequest :=
      { method := "GET", url := authProxyUrl rest, headers := [], body := "" }
    (proxyReturn (upstream out), [out])
  | Routed.userProxy rest =>
    let out : OutboundRequest :=
      { method := "GET", url := userProxyUrl rest, headers := [], body := "" }
    (proxyReturn (upstream out), [out])
  | Routed.redirectSlash => (redirectSlashResponse, [])
  | Routed.methodNotAllowed => (methodNotAllowedResponse, [])
  | Routed.noMatch => (notFoundResponse, [])

/-- Route selected by the auth service's router for a (method, path). -/
inductive AuthRouted where
  | health : AuthRouted
  | login : AuthRouted
  | validate : AuthRouted
  | methodNotAllowed : AuthRouted
  | noMatch : AuthRouted
deriving Repr, DecidableEq

/-- Auth service route matching, faithful to `auth-service/main.py`:
`GET /health`, `POST /login`, `POST /validate`; all three are fixed paths. -/
def authRouteOf (method path : String) : AuthRouted :=
  if path = "/health" then
    (if method = "GET" then AuthRouted.health else AuthRouted.methodNotAllowed)
  else if path = "/login" then
    (if method = "POST" then AuthRouted.login else AuthRouted.methodNotAllowed)
  else if path = "/validate" then
    (if method = "POST" then AuthRouted.validate else AuthRouted.methodNotAllowed)
  else
    AuthRouted.noMatch

/-- Body returned by the auth service's `validate` handler (lines 14-15):
a constant, independent of any input. -/
def validateJson : Json :=
  Json.obj [("valid", Json.bool true), ("user_id", Json.str "123")]

/-- Body returned by the auth service's `login` handler (lines 10-11). -/
def loginJson : Json :=
  Json.obj [("token", Json.str "mock-jwt-token")]

/-- The auth service app, `auth-service/main.py`. Handlers take no
parameters, so headers, query and body of the request are never consulted. -/
def authApp (req : Request) : HttpResponse :=
  match authRouteOf req.method req.path with
  | AuthRouted.health =>
    jsonOk (Json.obj [("status", Json.str "healthy"), ("service", Json.str "auth")])
  | AuthRouted.login => jsonOk loginJson
  | AuthRouted.validate => jsonOk validateJson
  | AuthRouted.methodNotAllowed => methodNotAllowedResponse
  | AuthRouted.noMatch => notFoundResponse

/-- Route selected by the user service's router for a (method, path). -/
inductive UserRouted where
  | health : UserRouted
  | getUser (userId : String) : UserRouted
  | createUser : UserRouted
  | methodNotAllowed : UserRouted
  | noMatch : UserRouted
deriving Repr, DecidableEq

/-- Test that a string is a valid value for a default Starlette path
parameter: the converter regex is `[^/]+`, one non-empty slash-free
segment. -/
def isSegment (s : String) : Bool :=
  !s.data.isEmpty && s.data.all (fun c => c ≠ '/')

/-- User service route matching, faithful to `user-service/main.py`:
`GET /health`, `GET /users/{user_id}` (single-segment converter) and
`POST /users`. -/
def userRouteOf (method path : String) : UserRouted :=
  if path = "/health" then
    (if method = "GET" then UserRouted.health else UserRouted.methodNotAllowed)
  else if strStarts "/users/" path && isSegment (strDropLen 7 path) then
    (if method = "GET" then UserRouted.getUser (strDropLen 7 path)
     else UserRouted.methodNotAllowed)
  else if path = "/users" then
    (if method = "POST" then UserRouted.createUser else UserRouted.methodNotAllowed)
  else
    UserRouted.noMatch

/-- Body returned by the user service's `get_user` handler (lines 10-11):
the requested id echoed back beside two constants. -/
def getUserJson (userId : String) : Json :=
  Json.obj [("id", Json.str userId), ("name", Json.str "John Doe"),
            ("email", Json.str "john@example.com")]

/-- Body returned by the user service's `create_user` handler (lines 14-15). -/
def createUserJson : Json :=
  Json.obj [("id", Json.str "456"), ("message", Json.str "User created")]

/-- The user service app, `user-service/main.py`. Only the `user_id` path
parameter is consulted; headers, query and body never are. -/
def userApp (req : Request) : HttpResponse :=
  match userRouteOf req.method req.path with
  | UserRouted.health =>
    jsonOk (Json.obj [("status", Json.str "healthy"), ("service", Json.str "user")])
  | UserRouted.getUser userId => jsonOk (getUserJson userId)
  | UserRouted.createUser => jsonOk createUserJson
  | UserRouted.methodNotAllowed => methodNotAllowedResponse
  | UserRouted.noMatch => notFoundResponse

lemma chStarts_append (p r : List Char) : chStarts p (p ++ r) = true := by
  induction p with
  | nil => rfl
  | cons a p ih => simp [chStarts, ih]

lemma chStarts_self (l : List Char) : chStarts l l = true := by
  have h := chStarts_append l []
  simpa using h

lemma chStarts_false_append (p q s : List Char) (h : chStarts p s = false) :
    chStarts (p ++ q) s = false := by
  induction p generalizing s with
  | nil => simp [chStarts] at h
  | cons a p ih =>
    cases s with
    | nil => rfl
    | cons b s =>
      simp only [chStarts, Bool.and_eq_false_iff] at h
      rcases h with h | h
      · simp [chStarts, h]
      · simp [chStarts, ih s h]

lemma strStarts_append (p r : String) : strStarts p (p ++ r) = true := by
  simp only [strStarts, String.data_append]
  exact chStarts_append p.data r.data

lemma strStarts_self (p : String) : strStarts p p = true := chStarts_self p.data

lemma strDropLen_auth (x : String) : strDropLen 6 ("/auth/" ++ x) = x := by
  have hd : ("/auth/" ++ x).data = "/auth/".data ++ x.data := String.data_append _ _
  have hl : ("/auth/" : String).data.length = 6 := rfl
  simp only [strDropLen, hd, ← hl, List.drop_left]

lemma strDropLen_users (x : String) : strDropLen 7 ("/users/" ++ x) = x := by
  have hd : ("/users/" ++ x).data = "/users/".data ++ x.data := String.data_append _ _
  have hl : ("/users/" : String).data.length = 7 := rfl
  simp only [strDropLen, hd, ← hl, List.drop_left]

lemma auth_ne_health (x : String) : ("/auth/" ++ x) ≠ "/health" := by
  intro h
  have h2 := congrArg String.data h
  simp [String.data_append] at h2

lemma users_ne_health (x : String) : ("/users/" ++ x) ≠ "/health" := by
  intro h
  have h2 := congrArg String.data h
  simp [String.data_append] at h2

lemma not_authStarts_users (x : String) : strStarts "/auth/" ("/users/" ++ x) = false := by
  simp [strStarts, String.data_append, chStarts]

lemma routeOf_auth (m x : String) :
    routeOf m ("/auth/" ++ x) =
      if m = "GET" then Routed.authProxy x else Routed.methodNotAllowed := by
  simp [routeOf, auth_ne_health, strStarts_append, strDropLen_auth]

lemma routeOf_users (m x : String) :
    routeOf m ("/users/" ++ x) =
      if m = "GET" then Routed.userProxy x else Routed.methodNotAllowed := by
  simp [routeOf, users_ne_health, not_authStarts_users, strStarts_append, strDropLen_users]

lemma userRouteOf_get (uid : String) (h : isSegment uid = true) :
    userRouteOf "GET" ("/users/" ++ uid) = UserRouted.getUser uid := by
  simp [userRouteOf, users_ne_health, strStarts_append, strDropLen_users, h]

/-- C1: a GET request to `/auth/x` (resp. `/users/x`) makes the gateway issue
exactly one upstream GET whose URL is `http://auth-service:8000/x` (resp.
`http://user-service:8000/x`): the matched prefix is stripped and the
remainder appended unchanged. -/
theorem gateway_forwards_stripped_remainder
    (upstream : OutboundRequest → UpstreamResult) (x q : String)
    (hs : List (String × String)) (b : String) :
    (gatewayApp upstream
        { method := "GET", path := "/auth/" ++ x, rawQuery := q,
          headers := hs, body := b }).2 =
      [{ method := "GET", url := "http://auth-service:8000/" ++ x,
         headers := [], body := "" }] ∧
    (gatewayApp upstream
        { method := "GET", path := "/users/" ++ x, rawQuery := q,
          headers := hs, body := b }).2 =
      [{ method := "GET", url := "http://user-service:8000/" ++ x,
         headers := [], body := "" }] := by
  constructor
  · simp [gatewayApp, routeOf_auth, authProxyUrl]
  · simp [gatewayApp, routeOf_users, userProxyUrl]

/-- C7: a GET request to `/health` on the gateway is answered locally with
status 200 and body exactly the rendering of
`\x7b"status": "healthy", "service": "gateway"\x7d`, and no outbound request
is issued. -/
theorem gateway_health_is_local_constant
    (upstream : OutboundRequest → UpstreamResult) (q : String)
    (hs : List (String × String)) (b : String) :
    gatewayApp upstream
        { method := "GET", path := "/health", rawQuery := q,
          headers := hs, body := b } =
      ({ status := 200, contentType := "application/json",
         body := "\x7b\"status\":\"healthy\",\"service\":\"gateway\"\x7d" }, []) := rfl

/-- C8: the auth service answers every POST to `/validate` with the constant
body `\x7b"valid": true, "user_id": "123"\x7d` and status 200, whatever the
query, headers or body supplied: the stub never rejects a validation. -/
theorem auth_validate_constant_accept
    (q : String) (hs : List (String × String)) (b : String) :
    authApp { method := "POST", path := "/validate", rawQuery := q,
              headers := hs, body := b } =
      { status := 200, contentType := "application/json",
        body := "\x7b\"valid\":true,\"user_id\":\"123\"\x7d" } := rfl

/-- C9: for every user id accepted by the route's single-segment converter,
a GET to `/users/<id>` on the user service returns status 200 with body
`\x7b"id": <id>, "name": "John Doe", "email": "john@example.com"\x7d`: the id is
echoed back beside the two constants and no not-found case exists. -/
theorem user_get_user_echoes_id
    (uid q : String) (hs : List (String × String)) (b : String)
    (h : isSegment uid = true) :
    userApp { method := "GET", path := "/users/" ++ uid, rawQuery := q,
              headers := hs, body := b } =
      { status := 200, contentType := "application/json",
        body := Json.render (Json.obj
          [("id", Json.str uid), ("name", Json.str "John Doe"),
           ("email", Json.str "john@example.com")]) } ∧
    (userApp { method := "GET", path := "/users/" ++ uid, rawQuery := q,
               headers := hs, body := b }).status = 200 := by
  have hr := userRouteOf_get uid h
  constructor
  · simp [userApp, hr, getUserJson, jsonOk]
  · simp [userApp, hr, jsonOk]

/-- Witness for C9 at the concrete id "123". -/
theorem user_get_user_echoes_id_witness :
    userApp { method := "GET", path := "/users/" ++ "123", rawQuery := "",
              headers := [], body := "" } =
      { status := 200, contentType := "application/json",
        body := Json.render (Json.obj
          [("id", Json.str "123"), ("name", Json.str "John Doe"),
           ("email", Json.str "john@example.com")]) } :=
  (user_get_user_echoes_id "123" "" [] "" (by decide)).1

/-- C10: the gateway's behaviour, in particular the list of outbound
requests it issues, is independent of the inbound query string (handlers
receive only the `path` parameter), and the outbound URL of a matched GET is
exactly the service base followed by the path remainder — the query string
never reaches the upstream. -/
theorem gateway_drops_query_string
    (upstream : OutboundRequest → UpstreamResult) (m p q q' x : String)
    (hs hs' : List (String × String)) (b b' : String) :
    gatewayApp upstream
        { method := m, path := p, rawQuery := q, headers := hs, body := b } =
      gatewayApp upstream
        { method := m, path := p, rawQuery := q', headers := hs', body := b' } ∧
    ((gatewayApp upstream
        { method := "GET", path := "/auth/" ++ x, rawQuery := q,
          headers := hs, body := b }).2.map OutboundRequest.url = [authProxyUrl x]) ∧
    ((gatewayApp upstream
        { method := "GET", path := "/users/" ++ x, rawQuery := q,
          headers := hs, body := b }).2.map OutboundRequest.url = [userProxyUrl x]) := by
  refine ⟨rfl, ?_, ?_⟩
  · simp [gatewayApp, routeOf_auth]
  · simp [gatewayApp, routeOf_users]

/-- C2 counterexample: the upstream answers 404, yet the gateway's response
to the caller has status 200 — the upstream status code is not relayed. -/
theorem gateway_does_not_relay_status_counterexample :
    (gatewayApp
        (fun _ => UpstreamResult.response 404 "application/json"
          "\x7b\"detail\":\"missing\"\x7d")
        { method := "GET", path := "/users/123", rawQuery := "",
          headers := [], body := "" }).1.status = 200 ∧
    (200 : Nat) ≠ 404 := ⟨rfl, by decide⟩

/-- C2 amended: when the upstream answers within the timeout with a body
that JSON-decodes, the gateway replies with status 200 and the re-serialized
decode of that body, whatever the upstream status and content type were;
status and content type are not preserved, and body bytes only up to JSON
re-serialization. -/
theorem gateway_returns_reserialized_body_as_200
    (upstream : OutboundRequest → UpstreamResult) (st : Nat) (ct body : String)
    (j : Json) (x q : String) (hs : List (String × String)) (b : String)
    (hj : Json.parse body = some j) :
    (upstream { method := "GET", url := authProxyUrl x, headers := [], body := "" } =
        UpstreamResult.response st ct body →
      (gatewayApp upstream
          { method := "GET", path := "/auth/" ++ x, rawQuery := q,
            headers := hs, body := b }).1 = jsonOk j) ∧
    (upstream { method := "GET", url := userProxyUrl x, headers := [], body := "" } =
        UpstreamResult.response st ct body →
      (gatewayApp upstream
          { method := "GET", path := "/users/" ++ x, rawQuery := q,
            headers := hs, body := b }).1 = jsonOk j) := by
  constructor
  · intro hu
    simp [gatewayApp, routeOf_auth, hu, proxyReturn, hj]
  · intro hu
    simp [gatewayApp, routeOf_users, hu, proxyReturn, hj]

/-- Witness for the amended C2: a concrete upstream 404 whose JSON body is
re-served as a 200. -/
theorem gateway_returns_reserialized_body_as_200_witness :
    (gatewayApp
        (fun _ => UpstreamResult.response 404 "text/plain" "\x7b\"a\":1\x7d")
        { method := "GET", path := "/auth/" ++ "x", rawQuery := "",
          headers := [], body := "" }).1 = jsonOk (Json.obj [("a", Json.num 1)]) :=
  (gateway_returns_reserialized_body_as_200
    (fun _ => UpstreamResult.response 404 "text/plain" "\x7b\"a\":1\x7d")
    404 "text/plain" "\x7b\"a\":1\x7d" (Json.obj [("a", Json.num 1)])
    "x" "" [] "" rfl).1 rfl

/-- C3 counterexample: on a refused upstream connection the caller receives
the framework's plain-text 500, not a structured 502 UpstreamUnavailable. -/
theorem connect_error_not_translated_counterexample :
    (gatewayApp (fun _ => UpstreamResult.connectError)
        { method := "GET", path := "/auth/validate", rawQuery := "",
          headers := [], body := "" }).1 =
      { status := 500, contentType := "text/plain; charset=utf-8",
        body := "Internal Server Error" } ∧
    (500 : Nat) ≠ 502 := ⟨rfl, by decide⟩

/-- C3 amended: the gateway handlers catch nothing; a refused or unreachable
upstream connection makes the `httpx` exception escape the handler and the
framework answers with the plain-text 500 Internal Server Error — no
structured UpstreamUnavailable or 502 is produced (the caller still gets a
well-formed HTTP response, not a raw transport fault). -/
theorem connect_error_becomes_framework_500
    (upstream : OutboundRequest → UpstreamResult) (x q : String)
    (hs : List (String × String)) (b : String) :
    (upstream { method := "GET", url := authProxyUrl x, headers := [], body := "" } =
        UpstreamResult.connectError →
      (gatewayApp upstream
          { method := "GET", path := "/auth/" ++ x, rawQuery := q,
            headers := hs, body := b }).1 = internalServerError) ∧
    (upstream { method := "GET", url := userProxyUrl x, headers := [], body := "" } =
        UpstreamResult.connectError →
      (gatewayApp upstream
          { method := "GET", path := "/users/" ++ x, rawQuery := q,
            headers := hs, body := b }).1 = internalServerError) := by
  constructor
  · intro hu
    simp [gatewayApp, routeOf_auth, hu, proxyReturn]
  · intro hu
    simp [gatewayApp, routeOf_users, hu, proxyReturn]

/-- Witness for the amended C3 at a concrete request. -/
theorem connect_error_becomes_framework_500_witness :
    (gatewayApp (fun _ => UpstreamResult.connectError)
        { method := "GET", path := "/auth/" ++ "validate", rawQuery := "",
          headers := [], body := "" }).1 = internalServerError :=
  (connect_error_becomes_framework_500
    (fun _ => UpstreamResult.connectError) "validate" "" [] "").1 rfl

/-- C4 counterexample: on an upstream timeout the caller receives the
framework's plain-text 500, not a 504 UpstreamTimeout. -/
theorem timeout_not_translated_counterexample :
    (gatewayApp (fun _ => UpstreamResult.timedOut)
        { method := "GET", path := "/users/123", rawQuery := "",
          headers := [], body := "" }).1 =
      { status := 500, contentType := "text/plain; charset=utf-8",
        body := "Internal Server Error" } ∧
    (500 : Nat) ≠ 504 := ⟨rfl, by decide⟩

/-- C4 amended: the outbound call is bounded only by httpx's default
client timeout (5 seconds — the source configures none); when it fires, the
`httpx` timeout exception escapes the handler uncaught and the caller
receives the framework's plain-text 500 Internal Server Error, not a
structured 504 UpstreamTimeout. -/
theorem timeout_becomes_framework_500
    (upstream : OutboundRequest → UpstreamResult) (x q : String)
    (hs : List (String × String)) (b : String) :
    (upstream { method := "GET", url := authProxyUrl x, headers := [], body := "" } =
        UpstreamResult.timedOut →
      (gatewayApp upstream
          { method := "GET", path := "/auth/" ++ x, rawQuery := q,
            headers := hs, body := b }).1 = internalServerError) ∧
    (upstream { method := "GET", url := userProxyUrl x, headers := [], body := "" } =
        UpstreamResult.timedOut →
      (gatewayApp upstream
          { method := "GET", path := "/users/" ++ x, rawQuery := q,
            headers := hs, body := b }).1 = internalServerError) := by
  constructor
  · intro hu
    simp [gatewayApp, routeOf_auth, hu, proxyReturn]
  · intro hu
    simp [gatewayApp, routeOf_users, hu, proxyReturn]

/-- Witness for the amended C4 at a concrete request. -/
theorem timeout_becomes_framework_500_witness :
    (gatewayApp (fun _ => UpstreamResult.timedOut)
        { method := "GET", path := "/users/" ++ "123", rawQuery := "",
          headers := [], body := "" }).1 = internalServerError :=
  (timeout_becomes_framework_500
    (fun _ => UpstreamResult.timedOut) "123" "" [] "").2 rfl

/-- C6 counterexample: a POST to the routed path `/auth/login` is not
forwarded at all — the gateway answers 405 Method Not Allowed and issues no
outbound request, so the inbound method and body are not relayed. -/
theorem post_not_forwarded_counterexample :
    gatewayApp (fun _ => UpstreamResult.response 200 "application/json" "\x7b\x7d")
        { method := "POST", path := "/auth/login", rawQuery := "",
          headers := [], body := "user=a" } =
      (methodNotAllowedResponse, []) := rfl

/-- C6 amended: only GET is routed — any other method on a routed path gets
405 with no outbound call — and a forwarded GET carries none of the inbound
headers or body: the outbound request is always a bare GET to the rewritten
URL. -/
theorem only_get_forwarded_and_nothing_passed_through
    (upstream : OutboundRequest → UpstreamResult) (m x q : String)
    (hs : List (String × String)) (b : String) :
    (m ≠ "GET" →
      gatewayApp upstream
          { method := m, path := "/auth/" ++ x, rawQuery := q,
            headers := hs, body := b } = (methodNotAllowedResponse, []) ∧
      gatewayApp upstream
          { method := m, path := "/users/" ++ x, rawQuery := q,
            headers := hs, body := b } = (methodNotAllowedResponse, [])) ∧
    (∀ o ∈ (gatewayApp upstream
        { method := "GET", path := "/auth/" ++ x, rawQuery := q,
          headers := hs, body := b }).2,
      o.method = "GET" ∧ o.headers = [] ∧ o.body = "") ∧
    (∀ o ∈ (gatewayApp upstream
        { method := "GET", path := "/users/" ++ x, rawQuery := q,
          headers := hs, body := b }).2,
      o.method = "GET" ∧ o.headers = [] ∧ o.body = "") := by
  refine ⟨fun hm => ⟨?_, ?_⟩, ?_, ?_⟩
  · simp [gatewayApp, routeOf_auth, hm]
  · simp [gatewayApp, routeOf_users, hm]
  · intro o ho
    simp [gatewayApp, routeOf_auth] at ho
    simp [ho]
  · intro o ho
    simp [gatewayApp, routeOf_users] at ho
    simp [ho]

/-- Witness for the amended C6 at a concrete POST. -/
theorem only_get_forwarded_witness :
    gatewayApp (fun _ => UpstreamResult.response 200 "application/json" "\x7b\x7d")
        { method := "POST", path := "/auth/" ++ "login", rawQuery := "",
          headers := [], body := "user=a" } = (methodNotAllowedResponse, []) :=
  ((only_get_forwarded_and_nothing_passed_through
    (fun _ => UpstreamResult.response 200 "application/json" "\x7b\x7d")
    "POST" "login" "" [] "user=a").1 (by decide)).1

lemma ne_of_strStarts_false {p lit : String} (h : strStarts lit p = false) : p ≠ lit := by
  intro he
  subst he
  simp [strStarts_self] at h

lemma strStarts_auth_slash_false (p : String) (h : strStarts "/auth" p = false) :
    strStarts "/auth/" p = false := by
  have hd : ("/auth/" : String).data = ("/auth" : String).data ++ ['/'] := rfl
  simp only [strStarts, hd]
  exact chStarts_false_append _ _ _ h

lemma strStarts_users_slash_false (p : String) (h : strStarts "/users" p = false) :
    strStarts "/users/" p = false := by
  have hd : ("/users/" : String).data = ("/users" : String).data ++ ['/'] := rfl
  simp only [strStarts, hd]
  exact chStarts_false_append _ _ _ h

/-- C5: a request whose path lies under none of the configured routes (it
starts with neither "/auth" nor "/users", nor with the locally served
"/health") receives the framework 404 and the gateway issues no outbound
request at all; and the two proxy prefixes are mutually exclusive, so every
request matches at most one route prefix. -/
theorem unmatched_request_404_and_at_most_one_route :
    (∀ (upstream : OutboundRequest → UpstreamResult) (m p q : String)
       (hs : List (String × String)) (b : String),
       strStarts "/auth" p = false → strStarts "/users" p = false →
       strStarts "/health" p = false →
       gatewayApp upstream
           { method := m, path := p, rawQuery := q, headers := hs, body := b } =
         (notFoundResponse, [])) ∧
    (∀ p : String, ¬(strStarts "/auth/" p = true ∧ strStarts "/users/" p = true)) := by
  constructor
  · intro u m p q hs b h1 h2 h3
    have ha : strStarts "/auth/" p = false := strStarts_auth_slash_false p h1
    have hus : strStarts "/users/" p = false := strStarts_users_slash_false p h2
    have hp1 : p ≠ "/health" := ne_of_strStarts_false h3
    have hp2 : p ≠ "/auth" := ne_of_strStarts_false h1
    have hp3 : p ≠ "/users" := ne_of_strStarts_false h2
    have hp4 : p ≠ "/health/" := by
      intro he
      subst he
      exact absurd h3 (by decide)
    simp [gatewayApp, routeOf, hp1, ha, hus, hp2, hp3, hp4]
  · rintro p ⟨h1, h2⟩
    rcases hd : p.data with _ | ⟨c0, _ | ⟨c1, rest⟩⟩
    · rw [strStarts, hd] at h1
      simp [chStarts] at h1
    · rw [strStarts, hd] at h1
      simp [chStarts] at h1
    · rw [strStarts, hd] at h1 h2
      simp [chStarts] at h1 h2
      exact absurd (h1.2.1.trans h2.2.1.symm) (by decide)

/-- Witness for C5 at the concrete unmatched path "/unknown/path". -/
theorem unmatched_request_404_witness :
    gatewayApp (fun _ => UpstreamResult.connectError)
        { method := "GET", path := "/unknown/path", rawQuery := "",
          headers := [], body := "" } = (notFoundResponse, []) :=
  unmatched_request_404_and_at_most_one_route.1
    (fun _ => UpstreamResult.connectError) "GET" "/unknown/path" "" [] ""
    (by decide) (by decide) (by decide)
